import Mathlib

/-!
Verification of the `gen-commit` tool (src/src/gen-commit.ts): a git
commit-message generator that reads the staged diff, asks a chat-completion
API for a conventional-commit message, asks the user for confirmation, and
commits on acceptance.

The embedding models one run of the program as a pure function from the
responses of its external collaborators (environment variable, git diff
command, HTTP completion call, the confirmation answer typed by the user,
and the git commit command) to the ordered list of externally visible
effects together with the process exit code. The tokenizer of the
`gpt-tokenizer` package is external to the repository, so token counting is
an abstract parameter `encodeLen : String → Nat` (the length of
`encode s`).
-/

/-- The code points removed by `String.prototype.trim`: the ECMAScript
WhiteSpace and LineTerminator sets. -/
def isJsWhitespace (c : Char) : Bool :=
  ['\t', '\n', '\x0b', '\x0c', '\r', ' ', '\u00A0', '\u1680',
   '\u2000', '\u2001', '\u2002', '\u2003', '\u2004', '\u2005',
   '\u2006', '\u2007', '\u2008', '\u2009', '\u200A', '\u2028',
   '\u2029', '\u202F', '\u205F', '\u3000', '\uFEFF'].contains c

/-- `String.prototype.trim`: drop leading and trailing whitespace. -/
def jsTrim (s : String) : String :=
  ⟨((s.data.dropWhile isJsWhitespace).reverse.dropWhile
      isJsWhitespace).reverse⟩

/-- `String.prototype.toLowerCase`, for the ASCII range this program
compares against (the confirmation answer checked against `y`). -/
def jsToLower (s : String) : String := ⟨s.data.map Char.toLower⟩

/-- Result of `getStagedDiff`: `content` is the stdout of
`git diff --cached`, `isEmpty` is the truthiness test `!content.trim()`. -/
structure GitDiff where
  content : String
  isEmpty : Bool
  deriving Repr, DecidableEq

/-- Builds the `GitDiff` record exactly as `getStagedDiff` does on a
successful `execSync` call. -/
def mkGitDiff (content : String) : GitDiff :=
  { content := content, isEmpty := jsTrim content == "" }

/-- The `OpenAIConfig` record built in the constructor. -/
structure OpenAIConfig where
  apiKey : String
  model : String
  temperature : ℚ
  maxContextLength : Nat
  deriving Repr, DecidableEq

/-- The ceiling set in the constructor: GPT-3.5-turbo context length. -/
def maxContextLength : Nat := 16385

/-- The config object of the constructor, given the (present) API key. -/
def mkOpenaiConfig (apiKey : String) : OpenAIConfig :=
  { apiKey := apiKey
    model := "gpt-3.5-turbo"
    temperature := 3 / 10
    maxContextLength := maxContextLength }

/-- The `promptTemplate` template literal of the constructor, verbatim
(a leading newline, six spaces of indentation on each non-blank line, and
six trailing spaces before the closing backtick). -/
def promptTemplate : String :=
  "\n      You are a developer writing a conventional commit message for the following staged Git diff.\n      Pick **one** of these commit types based on the changes:\n\n      - feat: (new feature for the user)\n      - fix: (bug fix for the user)\n      - docs: (documentation only)\n      - style: (code formatting, no production logic change)\n      - refactor: (code refactor, no new feature or bug fix)\n      - test: (test-only changes)\n      - chore: (tooling or non-functional changes)\n\n      Write a **single-line** commit message in **present tense**, starting with the appropriate prefix and a colon. Do not include any explanation or bullet points.\n\n      Git diff:\n      "

/-- Externally visible effects of one run, in the order they happen. -/
inductive Effect where
  /-- `execSync` of `git diff --cached`. -/
  | execDiff : Effect
  /-- The `axios.post` to the chat-completions endpoint, carrying the
  assembled prompt (template ++ diff). -/
  | httpPost (prompt : String) : Effect
  /-- A `console.log` line on stdout. -/
  | printOut (s : String) : Effect
  /-- The `readline` confirmation question written to stdout. -/
  | question (q : String) : Effect
  /-- `execSync` of the interpolated `git commit -m "..."` command line. -/
  | execCommit (cmd : String) : Effect
  /-- A `console.error` line on stderr. -/
  | printErr (s : String) : Effect
  deriving Repr, DecidableEq

/-- True exactly on the commit invocation effect. -/
def Effect.isCommit : Effect → Bool
  | .execCommit _ => true
  | _ => false

/-- True exactly on the network-call effect. -/
def Effect.isHttp : Effect → Bool
  | .httpPost _ => true
  | _ => false

/-- True exactly on the confirmation-prompt effect. -/
def Effect.isQuestion : Effect → Bool
  | .question _ => true
  | _ => false

/-- True exactly on a stderr line. -/
def Effect.isErr : Effect → Bool
  | .printErr _ => true
  | _ => false

/-- The `error.response.data` payload of a failed completion request:
`errorCode` is `data.error.code` when present, `asString` is the string
rendering used when the payload is interpolated into a template literal or
logged. A falsy payload (absent, or an empty-string body) is modelled as
the `data` field being `none` in `AxiosResponse`. -/
structure ProviderErrorData where
  errorCode : Option String
  asString : String
  deriving Repr, DecidableEq

/-- The `error.response` of an `AxiosError`, when the server answered. -/
structure AxiosResponse where
  status : Nat
  data : Option ProviderErrorData
  deriving Repr, DecidableEq

/-- Outcome of the awaited `axios.post` call.
`success c` is a 2xx response; `c` is `choices[0].message.content` when the
choices list has a first element and `none` when the list is empty or
missing. `axiosErr` is a thrown `AxiosError` with its optional response and
its `message`. `otherErr m` is any other thrown value: `some m` an `Error`
instance with message `m`, `none` a non-`Error` throw. -/
inductive HttpOutcome where
  | success (firstChoiceContent : Option String) : HttpOutcome
  | axiosErr (response : Option AxiosResponse) (message : String) : HttpOutcome
  | otherErr (message : Option String) : HttpOutcome
  deriving Repr, DecidableEq

/-- The responses of the run's external collaborators.
`apiKey` is `process.env.OPENAI_API_KEY` after `dotenv.config()`;
`diff` is the `execSync` result of `git diff --cached` (error: the thrown
message, `none` for a non-`Error` throw); `http` the completion call
outcome; `answer` the line typed at the confirmation prompt; `commit` the
`execSync` result of the commit command. -/
structure Inputs where
  apiKey : Option String
  diff : Except (Option String) String
  http : HttpOutcome
  answer : String
  commit : Except (Option String) Unit

/-- The observable result of one process run. -/
structure RunResult where
  effects : List Effect
  exitCode : Nat
  deriving Repr, DecidableEq

/-- Renders `error instanceof Error ? error.message : "Unknown error"`. -/
def errMsgOf (e : Option String) : String := e.getD "Unknown error"

/-- The constructor's missing-credential error message. -/
def keyMissingMsg : String :=
  "❌ OPENAI_API_KEY is not set. Please export it in your shell config."

/-- The message thrown by `getStagedDiff` when `execSync` fails. -/
def diffFailMsg (e : Option String) : String :=
  "❌ Failed to get git diff: " ++ errMsgOf e

/-- The empty-diff notice printed by `run`. -/
def noStagedMsg : String :=
  "⚠️ No staged changes found. Stage some files first."

/-- The message thrown by `checkContextLength` when the token sum exceeds
the ceiling, carrying the computed counts and the ceiling. -/
def guardMsg (totalTokens maxAllowed diffTokens : Nat) : String :=
  "❌ The staged changes are too large for the model to process.\n" ++
  "- Total tokens: " ++ toString totalTokens ++ "\n" ++
  "- Maximum allowed: " ++ toString maxAllowed ++ "\n" ++
  "- Diff tokens: " ++ toString diffTokens ++ "\n\n" ++
  "Please try committing your changes in smaller chunks."

/-- The message thrown on a provider-reported context-length error
(status 400 with code `context_length_exceeded`). -/
def providerCtxMsg : String :=
  "❌ The staged changes are too large for the model to process.\n" ++
  "Please try committing your changes in smaller chunks."

/-- The message thrown on any other `AxiosError`, interpolating
`error.response?.data || error.message`. -/
def genFailMsg (payload : String) : String :=
  "❌ Error generating commit message: " ++ payload

/-- The message thrown on a non-`AxiosError` failure in the try block. -/
def unexpectedMsg (m : Option String) : String :=
  "❌ Unexpected error: " ++ errMsgOf m

/-- Message of the TypeError the JS runtime raises when `choices[0]` is
`undefined` and `.message` is read on it (the empty-choices case). -/
def undefinedReadMsg : String :=
  "Cannot read properties of undefined (reading \x27message\x27)"

/-- The header printed above the suggested message. -/
def suggestedHeader : String := "\n✅ Suggested commit message:\n"

/-- The confirmation question written by `promptUser`. -/
def questionText : String :=
  "\n🤖 Do you want to use this commit message? (y/N): "

/-- The decline notice. -/
def cancelledMsg : String := "🛑 Commit cancelled."

/-- The message thrown by `commitChanges` when `execSync` fails. -/
def commitFailMsg (e : Option String) : String :=
  "❌ Failed to commit: " ++ errMsgOf e

/-- The test `error.response?.status === 400 &&
error.response?.data?.error?.code === "context_length_exceeded"`. -/
def isCtxLengthErr (response : Option AxiosResponse) : Bool :=
  match response with
  | some r =>
      r.status == 400 &&
        (match r.data with
         | some d => d.errorCode == some "context_length_exceeded"
         | none => false)
  | none => false

/-- The interpolated value `error.response?.data || error.message`: the
payload's string rendering when the payload is present (truthy), otherwise
the error's message. -/
def errPayload (response : Option AxiosResponse) (message : String) : String :=
  match response with
  | some r =>
      match r.data with
      | some d => d.asString
      | none => message
  | none => message

/-- What `console.log(error.response?.data)` writes: the payload rendering,
or `undefined` when there is no response or no data. -/
def dataLog (response : Option AxiosResponse) : String :=
  match response with
  | some r =>
      match r.data with
      | some d => d.asString
      | none => "undefined"
  | none => "undefined"

/-- `message.replace(/"/g, '\\"')` on the character list: each double
quote becomes backslash-quote, every other character is kept as is. -/
def escapeQuotesAux : List Char → List Char
  | [] => []
  | c :: cs =>
      if c = '"' then '\\' :: '"' :: escapeQuotesAux cs
      else c :: escapeQuotesAux cs

/-- `message.replace(/"/g, '\\"')` as a string transformer. -/
def escapeQuotes (s : String) : String := ⟨escapeQuotesAux s.data⟩

/-- The command line `commitChanges` interpolates and hands to `execSync`:
`git commit -m "${message.replace(/"/g, '\\"')}"`. -/
def commitCommand (message : String) : String :=
  "git commit -m \"" ++ escapeQuotes message ++ "\""

/-- `checkContextLength`: `some errorMessage` when it throws, `none` when
the check passes. `encodeLen` abstracts `(s) => encode(s).length` of the
external `gpt-tokenizer` package. -/
def checkContextLength (encodeLen : String → Nat) (diff : String) :
    Option String :=
  let promptTokens := encodeLen promptTemplate
  let diffTokens := encodeLen diff
  let totalTokens := promptTokens + diffTokens
  if totalTokens > maxContextLength then
    some (guardMsg totalTokens maxContextLength diffTokens)
  else
    none

/-- `generateCommitMessage`: runs the local context guard, then (only if it
passes) performs the HTTP call and maps its outcome. Returns the effects it
performs and either the trimmed first-choice content or the thrown error
message. -/
def generateCommitMessage (encodeLen : String → Nat) (diff : String)
    (http : HttpOutcome) : List Effect × Except String String :=
  match checkContextLength encodeLen diff with
  | some err => ([], Except.error err)
  | none =>
      let prompt := promptTemplate ++ diff
      match http with
      | HttpOutcome.success (some content) =>
          ([Effect.httpPost prompt], Except.ok (jsTrim content))
      | HttpOutcome.success none =>
          ([Effect.httpPost prompt],
           Except.error (unexpectedMsg (some undefinedReadMsg)))
      | HttpOutcome.axiosErr response message =>
          if isCtxLengthErr response then
            ([Effect.httpPost prompt], Except.error providerCtxMsg)
          else
            ([Effect.httpPost prompt, Effect.printOut (dataLog response)],
             Except.error (genFailMsg (errPayload response message)))
      | HttpOutcome.otherErr message =>
          ([Effect.httpPost prompt], Except.error (unexpectedMsg message))

/-- `run`: the whole pipeline with its top-level catch. A caught error is
printed with `console.error` followed by `process.exit(1)`; the normal
return paths leave the process to exit with status 0. -/
def run (encodeLen : String → Nat) (inp : Inputs) : RunResult :=
  match inp.diff with
  | Except.error e =>
      { effects := [Effect.execDiff, Effect.printErr (diffFailMsg e)]
        exitCode := 1 }
  | Except.ok content =>
      let diff := mkGitDiff content
      if diff.isEmpty then
        { effects := [Effect.execDiff, Effect.printOut noStagedMsg]
          exitCode := 0 }
      else
        match generateCommitMessage encodeLen diff.content inp.http with
        | (effs, Except.error msg) =>
            { effects := Effect.execDiff :: effs ++ [Effect.printErr msg]
              exitCode := 1 }
        | (effs, Except.ok suggestion) =>
            let pre := Effect.execDiff :: effs ++
              [Effect.printOut suggestedHeader, Effect.printOut suggestion,
               Effect.question questionText]
            if jsToLower inp.answer = "y" then
              match inp.commit with
              | Except.ok _ =>
                  { effects :=
                      pre ++ [Effect.execCommit (commitCommand suggestion)]
                    exitCode := 0 }
              | Except.error e =>
                  { effects :=
                      pre ++ [Effect.execCommit (commitCommand suggestion),
                              Effect.printErr (commitFailMsg e)]
                    exitCode := 1 }
            else
              { effects := pre ++ [Effect.printOut cancelledMsg]
                exitCode := 0 }

/-- The whole process: `new GitCommitGenerator().run()`. The constructor
throws synchronously when the credential is falsy (absent or empty), so the
exception escapes uncaught: node prints the error (which carries the setup
instruction) on stderr and exits with status 1, before any other effect. -/
def program (encodeLen : String → Nat) (inp : Inputs) : RunResult :=
  if (inp.apiKey.getD "") = "" then
    { effects := [Effect.printErr keyMissingMsg], exitCode := 1 }
  else
    run encodeLen inp

/-! Theorems. -/

theorem escapeQuotesAux_eq_join (l : List Char) :
    escapeQuotesAux l =
      (l.map fun c => if c = '"' then ['\\', '"'] else [c]).flatten := by
  induction l with
  | nil => rfl
  | cons c cs ih =>
      by_cases hc : c = '"' <;> simp [escapeQuotesAux, hc, ih]

/-- Claim C9: for every approved message, the commit command string is
exactly `git commit -m "` followed by the message with each double-quote
character replaced by backslash-double-quote, followed by `"`; every other
character is passed through to the shell command line unchanged. -/
theorem c9_escape_coverage (msg : String) :
    commitCommand msg =
      "git commit -m \"" ++
        String.mk ((msg.data.map fun c =>
          if c = '"' then ['\\', '"'] else [c]).flatten) ++ "\"" := by
  unfold commitCommand escapeQuotes
  rw [escapeQuotesAux_eq_join]

/-- Claim C4: for every staged diff whose trimmed text has zero length, the
emptiness flag is true, and the run prints the no-staged-changes notice and
exits with status 0 without issuing any network call. -/
theorem c4_empty_diff (encodeLen : String → Nat) (inp : Inputs)
    (content : String) (h1 : inp.diff = Except.ok content)
    (h2 : jsTrim content = "") :
    (mkGitDiff content).isEmpty = true ∧
    run encodeLen inp =
      { effects := [Effect.execDiff, Effect.printOut noStagedMsg]
        exitCode := 0 } ∧
    (run encodeLen inp).effects.countP Effect.isHttp = 0 := by
  have hemp : (mkGitDiff content).isEmpty = true := by
    simp [mkGitDiff, h2]
  have hrun : run encodeLen inp =
      { effects := [Effect.execDiff, Effect.printOut noStagedMsg]
        exitCode := 0 } := by
    simp [run, h1, hemp]
  refine ⟨hemp, hrun, ?_⟩
  rw [hrun]
  decide

def c4Inp : Inputs :=
  { apiKey := some "k", diff := Except.ok "  \n ",
    http := HttpOutcome.success (some "feat: x"), answer := "n",
    commit := Except.ok () }

theorem c4_empty_diff_witness :
    jsTrim "  \n " = "" ∧
    ((mkGitDiff "  \n ").isEmpty = true ∧
     run (fun _ => 1) c4Inp =
       { effects := [Effect.execDiff, Effect.printOut noStagedMsg]
         exitCode := 0 } ∧
     (run (fun _ => 1) c4Inp).effects.countP Effect.isHttp = 0) :=
  ⟨by decide, c4_empty_diff (fun _ => 1) c4Inp "  \n " rfl (by decide)⟩

/-- Claim C3: if the token count of the template plus the token count of
the diff exceeds the ceiling, the run fails (exit 1) with the guard message
carrying the computed counts and the ceiling, and no network call is ever
issued. -/
theorem c3_context_guard (encodeLen : String → Nat) (inp : Inputs)
    (content : String) (h1 : inp.diff = Except.ok content)
    (h2 : ¬ jsTrim content = "")
    (h3 : encodeLen promptTemplate + encodeLen content > maxContextLength) :
    run encodeLen inp =
      { effects :=
          [Effect.execDiff,
           Effect.printErr
             (guardMsg (encodeLen promptTemplate + encodeLen content)
               maxContextLength (encodeLen content))]
        exitCode := 1 } ∧
    (run encodeLen inp).effects.countP Effect.isHttp = 0 := by
  have hguard : checkContextLength encodeLen content = some
      (guardMsg (encodeLen promptTemplate + encodeLen content)
        maxContextLength (encodeLen content)) := by
    simp [checkContextLength, h3]
  have hrun : run encodeLen inp =
      { effects :=
          [Effect.execDiff,
           Effect.printErr
             (guardMsg (encodeLen promptTemplate + encodeLen content)
               maxContextLength (encodeLen content))]
        exitCode := 1 } := by
    simp [run, h1, generateCommitMessage, hguard, mkGitDiff, h2]
  refine ⟨hrun, ?_⟩
  rw [hrun]
  simp [List.countP_cons, Effect.isHttp]

def c3Inp : Inputs :=
  { apiKey := some "k", diff := Except.ok "+x",
    http := HttpOutcome.success (some "feat: x"), answer := "y",
    commit := Except.ok () }

theorem c3_context_guard_witness :
    (fun _ => 9000 : String → Nat) promptTemplate +
        (fun _ => 9000 : String → Nat) "+x" > maxContextLength ∧
    (run (fun _ => 9000) c3Inp =
       { effects :=
           [Effect.execDiff,
            Effect.printErr (guardMsg 18000 maxContextLength 9000)]
         exitCode := 1 } ∧
     (run (fun _ => 9000) c3Inp).effects.countP Effect.isHttp = 0) :=
  ⟨by decide,
   c3_context_guard (fun _ => 9000) c3Inp "+x" rfl (by decide) (by decide)⟩

/-- Claim C7: if the OPENAI_API_KEY environment variable is absent at
startup, the process exits non-zero after printing the setup instruction,
with no network call and no confirmation prompt. -/
theorem c7_missing_credential (encodeLen : String → Nat) (inp : Inputs)
    (h : inp.apiKey = none) :
    program encodeLen inp =
      { effects := [Effect.printErr keyMissingMsg], exitCode := 1 } ∧
    (program encodeLen inp).exitCode ≠ 0 ∧
    (program encodeLen inp).effects.countP Effect.isHttp = 0 ∧
    (program encodeLen inp).effects.countP Effect.isQuestion = 0 := by
  have hk : inp.apiKey.getD "" = "" := by rw [h]; rfl
  have hprog : program encodeLen inp =
      { effects := [Effect.printErr keyMissingMsg], exitCode := 1 } := by
    simp [program, hk]
  refine ⟨hprog, ?_, ?_, ?_⟩ <;> rw [hprog] <;> decide

def c7Inp : Inputs :=
  { apiKey := none, diff := Except.ok "+x",
    http := HttpOutcome.success (some "feat: x"), answer := "y",
    commit := Except.ok () }

theorem c7_missing_credential_witness :
    c7Inp.apiKey = none ∧
    (program (fun _ => 0) c7Inp =
       { effects := [Effect.printErr keyMissingMsg], exitCode := 1 } ∧
     (program (fun _ => 0) c7Inp).exitCode ≠ 0 ∧
     (program (fun _ => 0) c7Inp).effects.countP Effect.isHttp = 0 ∧
     (program (fun _ => 0) c7Inp).effects.countP Effect.isQuestion = 0) :=
  ⟨rfl, c7_missing_credential (fun _ => 0) c7Inp rfl⟩

/-- Claim C1: on a run that reaches the confirmation prompt, entering `y`
invokes the commit step exactly once, with the trimmed suggested message
embedded in the command line with its double quotes escaped. -/
theorem c1_accept_path (encodeLen : String → Nat) (inp : Inputs)
    (content raw : String) (h1 : inp.diff = Except.ok content)
    (h2 : ¬ jsTrim content = "")
    (h3 : encodeLen promptTemplate + encodeLen content ≤ maxContextLength)
    (h4 : inp.http = HttpOutcome.success (some raw))
    (h5 : inp.answer = "y") :
    (run encodeLen inp).effects.filter Effect.isCommit =
      [Effect.execCommit (commitCommand (jsTrim raw))] := by
  have hguard : checkContextLength encodeLen content = none := by
    have hle : ¬ encodeLen promptTemplate + encodeLen content >
        maxContextLength := by omega
    simp [checkContextLength, hle]
  have hy : jsToLower inp.answer = "y" := by rw [h5]; decide
  cases hc : inp.commit with
  | ok u =>
      simp [run, h1, h2, generateCommitMessage, hguard, mkGitDiff, h4, hy,
        hc, List.filter, Effect.isCommit]
  | error e =>
      simp [run, h1, h2, generateCommitMessage, hguard, mkGitDiff, h4, hy,
        hc, List.filter, Effect.isCommit]

def c1Inp : Inputs :=
  { apiKey := some "k", diff := Except.ok "+x",
    http := HttpOutcome.success (some " feat: add x\n"), answer := "y",
    commit := Except.ok () }

theorem c1_accept_path_witness :
    c1Inp.answer = "y" ∧
    (run (fun _ => 0) c1Inp).effects.filter Effect.isCommit =
      [Effect.execCommit (commitCommand (jsTrim " feat: add x\n"))] :=
  ⟨rfl, c1_accept_path (fun _ => 0) c1Inp "+x" " feat: add x\n" rfl
    (by decide) (by decide) rfl rfl⟩

def c2Inp : Inputs :=
  { apiKey := some "k", diff := Except.ok "+x",
    http := HttpOutcome.success (some "feat: add x"), answer := "Y",
    commit := Except.ok () }

/-- Counterexample to claim C2 as stated: the claim lists `Y` among the
inputs treated as decline, but on input `Y` the code lowercases the answer,
accepts, and invokes the commit step. -/
theorem c2_counterexample :
    c2Inp.answer = "Y" ∧
    (run (fun _ => 0) c2Inp).effects.countP Effect.isCommit = 1 := by
  refine ⟨rfl, ?_⟩
  decide

/-- Claim C2 (amended): a case-insensitive comparison against `y` is the
only path to acceptance — exactly the answers whose lowercasing is `y`
(`y` and `Y`) accept; every other input (empty, `yes`, `n`, ...) declines,
and a declined run performs no commit invocation and exits with status
0. -/
theorem c2_confirmation_amended (encodeLen : String → Nat) (inp : Inputs)
    (content raw : String) (h1 : inp.diff = Except.ok content)
    (h2 : ¬ jsTrim content = "")
    (h3 : encodeLen promptTemplate + encodeLen content ≤ maxContextLength)
    (h4 : inp.http = HttpOutcome.success (some raw)) :
    ((run encodeLen inp).effects.countP Effect.isCommit =
      if jsToLower inp.answer = "y" then 1 else 0) ∧
    (¬ jsToLower inp.answer = "y" →
      (run encodeLen inp).effects.countP Effect.isCommit = 0 ∧
      (run encodeLen inp).exitCode = 0) := by
  have hguard : checkContextLength encodeLen content = none := by
    have hle : ¬ encodeLen promptTemplate + encodeLen content >
        maxContextLength := by omega
    simp [checkContextLength, hle]
  by_cases hy : jsToLower inp.answer = "y"
  · cases hc : inp.commit with
    | ok u =>
        simp [run, h1, h2, generateCommitMessage, hguard, mkGitDiff, h4,
          hy, hc, List.countP_cons, Effect.isCommit]
    | error e =>
        simp [run, h1, h2, generateCommitMessage, hguard, mkGitDiff, h4,
          hy, hc, List.countP_cons, Effect.isCommit]
  · simp [run, h1, h2, generateCommitMessage, hguard, mkGitDiff, h4, hy,
      List.countP_cons, Effect.isCommit]

def c2wInp : Inputs :=
  { apiKey := some "k", diff := Except.ok "+x",
    http := HttpOutcome.success (some "feat: add x"), answer := "yes",
    commit := Except.ok () }

theorem c2_confirmation_amended_witness :
    ¬ jsToLower c2wInp.answer = "y" ∧
    (((run (fun _ => 0) c2wInp).effects.countP Effect.isCommit =
        if jsToLower c2wInp.answer = "y" then 1 else 0) ∧
     (¬ jsToLower c2wInp.answer = "y" →
       (run (fun _ => 0) c2wInp).effects.countP Effect.isCommit = 0 ∧
       (run (fun _ => 0) c2wInp).exitCode = 0)) :=
  ⟨by decide, c2_confirmation_amended (fun _ => 0) c2wInp "+x"
    "feat: add x" rfl (by decide) (by decide) rfl⟩

/-- Claim C10: when the completion endpoint answers successfully but with
an empty or missing candidate list, no suggested message is produced: the
failure surfaces through the generic unexpected-error path and the process
exits non-zero, with no commit and no confirmation prompt. -/
theorem c10_no_candidate (encodeLen : String → Nat) (inp : Inputs)
    (content : String) (h1 : inp.diff = Except.ok content)
    (h2 : ¬ jsTrim content = "")
    (h3 : encodeLen promptTemplate + encodeLen content ≤ maxContextLength)
    (h4 : inp.http = HttpOutcome.success none) :
    run encodeLen inp =
      { effects :=
          [Effect.execDiff, Effect.httpPost (promptTemplate ++ content),
           Effect.printErr (unexpectedMsg (some undefinedReadMsg))]
        exitCode := 1 } ∧
    (run encodeLen inp).effects.countP Effect.isCommit = 0 ∧
    (run encodeLen inp).effects.countP Effect.isQuestion = 0 := by
  have hguard : checkContextLength encodeLen content = none := by
    have hle : ¬ encodeLen promptTemplate + encodeLen content >
        maxContextLength := by omega
    simp [checkContextLength, hle]
  have hrun : run encodeLen inp =
      { effects :=
          [Effect.execDiff, Effect.httpPost (promptTemplate ++ content),
           Effect.printErr (unexpectedMsg (some undefinedReadMsg))]
        exitCode := 1 } := by
    simp [run, h1, h2, generateCommitMessage, hguard, mkGitDiff, h4]
  refine ⟨hrun, ?_, ?_⟩ <;> rw [hrun] <;>
    simp [List.countP_cons, Effect.isCommit, Effect.isQuestion]

def c10Inp : Inputs :=
  { apiKey := some "k", diff := Except.ok "+x",
    http := HttpOutcome.success none, answer := "y",
    commit := Except.ok () }

theorem c10_no_candidate_witness :
    c10Inp.http = HttpOutcome.success none ∧
    (run (fun _ => 0) c10Inp =
       { effects :=
           [Effect.execDiff, Effect.httpPost (promptTemplate ++ "+x"),
            Effect.printErr (unexpectedMsg (some undefinedReadMsg))]
         exitCode := 1 } ∧
     (run (fun _ => 0) c10Inp).effects.countP Effect.isCommit = 0 ∧
     (run (fun _ => 0) c10Inp).effects.countP Effect.isQuestion = 0) :=
  ⟨rfl, c10_no_candidate (fun _ => 0) c10Inp "+x" rfl (by decide)
    (by decide) rfl⟩

def c5Inp : Inputs :=
  { apiKey := some "k", diff := Except.ok "+x",
    http := HttpOutcome.axiosErr
      (some { status := 400,
              data := some { errorCode := some "context_length_exceeded",
                             asString := "[object Object]" } })
      "Request failed with status code 400",
    answer := "n", commit := Except.ok () }

/-- Counterexample to claim C5 as stated: on a provider-reported 400
context-length error the run surfaces the fixed short message, which is
not the same string as the message the local guard produces — the guard
message carries the token counts (shown here at the counts this very run
computes, 7 tokens each for template and diff). -/
theorem c5_counterexample :
    (run (fun _ => 7) c5Inp).effects.contains
      (Effect.printErr providerCtxMsg) = true ∧
    providerCtxMsg ≠ guardMsg (7 + 7) maxContextLength 7 := by
  refine ⟨?_, ?_⟩ <;> decide

/-- Claim C5 (amended): an HTTP failure with status 400 and provider error
code `context_length_exceeded` makes the run fail (exit 1) with the fixed
context-too-large message: the guard message's opening line and closing
guidance line, without the token-count lines. -/
theorem c5_provider_mapping_amended (encodeLen : String → Nat)
    (inp : Inputs) (content msg : String) (r : AxiosResponse)
    (d : ProviderErrorData)
    (h1 : inp.diff = Except.ok content) (h2 : ¬ jsTrim content = "")
    (h3 : encodeLen promptTemplate + encodeLen content ≤ maxContextLength)
    (h4 : inp.http = HttpOutcome.axiosErr (some r) msg)
    (h5 : r.status = 400) (h6 : r.data = some d)
    (h7 : d.errorCode = some "context_length_exceeded") :
    run encodeLen inp =
      { effects :=
          [Effect.execDiff, Effect.httpPost (promptTemplate ++ content),
           Effect.printErr providerCtxMsg]
        exitCode := 1 } := by
  have hguard : checkContextLength encodeLen content = none := by
    have hle : ¬ encodeLen promptTemplate + encodeLen content >
        maxContextLength := by omega
    simp [checkContextLength, hle]
  have hctx : isCtxLengthErr (some r) = true := by
    simp [isCtxLengthErr, h5, h6, h7]
  simp [run, h1, h2, generateCommitMessage, hguard, mkGitDiff, h4, hctx]

theorem c5_provider_mapping_amended_witness :
    c5Inp.http = HttpOutcome.axiosErr
      (some { status := 400,
              data := some { errorCode := some "context_length_exceeded",
                             asString := "[object Object]" } })
      "Request failed with status code 400" ∧
    run (fun _ => 7) c5Inp =
      { effects :=
          [Effect.execDiff, Effect.httpPost (promptTemplate ++ "+x"),
           Effect.printErr providerCtxMsg]
        exitCode := 1 } :=
  ⟨rfl, c5_provider_mapping_amended (fun _ => 7) c5Inp "+x"
    "Request failed with status code 400"
    { status := 400,
      data := some { errorCode := some "context_length_exceeded",
                     asString := "[object Object]" } }
    { errorCode := some "context_length_exceeded",
      asString := "[object Object]" }
    rfl (by decide) (by decide) rfl rfl rfl rfl⟩

/-- Substring occurrence test, on the underlying character lists. -/
def containsSubstring (needle hay : String) : Bool :=
  (List.range (hay.data.length + 1)).any
    fun i => needle.data.isPrefixOf (hay.data.drop i)

theorem containsSubstring_append (pre n : String) :
    containsSubstring n (pre ++ n) = true := by
  unfold containsSubstring
  rw [List.any_eq_true]
  refine ⟨pre.data.length, ?_, ?_⟩
  · rw [List.mem_range, String.data_append, List.length_append]
    omega
  · rw [String.data_append, List.drop_left, List.isPrefixOf_iff_prefix]

def c6Inp : Inputs :=
  { apiKey := some "k", diff := Except.ok "+x",
    http := HttpOutcome.axiosErr
      (some { status := 503,
              data := some { errorCode := none,
                             asString := "Service Unavailable" } })
      "Request failed with status code 503",
    answer := "n", commit := Except.ok () }

/-- Counterexample to claim C6 as stated: on an HTTP 503 failure the only
error line the run surfaces interpolates the provider payload but not the
HTTP status — the digits 503 occur nowhere in it. -/
theorem c6_counterexample :
    (run (fun _ => 0) c6Inp).effects.filter Effect.isErr =
      [Effect.printErr (genFailMsg "Service Unavailable")] ∧
    containsSubstring "503" (genFailMsg "Service Unavailable") = false := by
  refine ⟨?_, ?_⟩ <;> decide

/-- Claim C6 (amended): for every HTTP failure other than the 400
context-length case in which the provider sent a (truthy) payload, the
surfaced error is a fixed prefix followed by the payload rendering
verbatim, and the run exits non-zero; the HTTP status is not part of the
message (the same message results whatever the status). -/
theorem c6_other_http_amended (encodeLen : String → Nat) (inp : Inputs)
    (content msg : String) (r : AxiosResponse) (d : ProviderErrorData)
    (h1 : inp.diff = Except.ok content) (h2 : ¬ jsTrim content = "")
    (h3 : encodeLen promptTemplate + encodeLen content ≤ maxContextLength)
    (h4 : inp.http = HttpOutcome.axiosErr (some r) msg)
    (h5 : r.data = some d)
    (h6 : isCtxLengthErr (some r) = false) :
    run encodeLen inp =
      { effects :=
          [Effect.execDiff, Effect.httpPost (promptTemplate ++ content),
           Effect.printOut d.asString,
           Effect.printErr (genFailMsg d.asString)]
        exitCode := 1 } ∧
    containsSubstring d.asString (genFailMsg d.asString) = true := by
  have hguard : checkContextLength encodeLen content = none := by
    have hle : ¬ encodeLen promptTemplate + encodeLen content >
        maxContextLength := by omega
    simp [checkContextLength, hle]
  refine ⟨?_, containsSubstring_append _ _⟩
  simp [run, h1, h2, generateCommitMessage, hguard, mkGitDiff, h4, h6,
    dataLog, errPayload, h5]

theorem c6_other_http_amended_witness :
    isCtxLengthErr
      (some { status := 503,
              data := some { errorCode := none,
                             asString := "Service Unavailable" } }) =
        false ∧
    (run (fun _ => 0) c6Inp =
       { effects :=
           [Effect.execDiff, Effect.httpPost (promptTemplate ++ "+x"),
            Effect.printOut "Service Unavailable",
            Effect.printErr (genFailMsg "Service Unavailable")]
         exitCode := 1 } ∧
     containsSubstring "Service Unavailable"
       (genFailMsg "Service Unavailable") = true) :=
  ⟨by decide, c6_other_http_amended (fun _ => 0) c6Inp "+x"
    "Request failed with status code 503"
    { status := 503,
      data := some { errorCode := none, asString := "Service Unavailable" } }
    { errorCode := none, asString := "Service Unavailable" }
    rfl (by decide) (by decide) rfl rfl (by decide)⟩

/-- Claim C8: every effect trace containing a commit invocation comes from
a run in which the credential was present, the diff was non-empty, the
context guard passed, the completion call succeeded and the user answered
affirmatively; the trace starts with the diff read, the network call, the
suggestion display and the confirmation question, in that order, before
the commit, and the commit command embeds the trimmed suggestion. Any
failure before that point therefore leaves no commit effect. -/
theorem c8_no_premature_mutation (encodeLen : String → Nat) (inp : Inputs)
    (c : String)
    (h : Effect.execCommit c ∈ (program encodeLen inp).effects) :
    ¬ inp.apiKey.getD "" = "" ∧
    ∃ content raw rest,
      inp.diff = Except.ok content ∧
      ¬ jsTrim content = "" ∧
      encodeLen promptTemplate + encodeLen content ≤ maxContextLength ∧
      inp.http = HttpOutcome.success (some raw) ∧
      jsToLower inp.answer = "y" ∧
      c = commitCommand (jsTrim raw) ∧
      (program encodeLen inp).effects =
        [Effect.execDiff, Effect.httpPost (promptTemplate ++ content),
         Effect.printOut suggestedHeader, Effect.printOut (jsTrim raw),
         Effect.question questionText, Effect.execCommit c] ++ rest := by
  by_cases hk : inp.apiKey.getD "" = ""
  · simp [program, hk] at h
  · have hp : program encodeLen inp = run encodeLen inp := by
      simp [program, hk]
    rw [hp] at h ⊢
    refine ⟨hk, ?_⟩
    rcases hdiff : inp.diff with e | content
    · simp [run, hdiff] at h
    · by_cases hemp : jsTrim content = ""
      · simp [run, hdiff, hemp, mkGitDiff] at h
      · by_cases hg : encodeLen promptTemplate + encodeLen content >
            maxContextLength
        · simp [run, hdiff, hemp, mkGitDiff, generateCommitMessage,
            checkContextLength, hg] at h
        · have hguard : checkContextLength encodeLen content = none := by
            simp [checkContextLength, hg]
          rcases hhttp : inp.http with co | ⟨resp, msg⟩ | msg
          · rcases co with _ | raw
            · simp [run, hdiff, hemp, mkGitDiff, generateCommitMessage,
                hguard, hhttp] at h
            · by_cases hy : jsToLower inp.answer = "y"
              · have hc : c = commitCommand (jsTrim raw) := by
                  rcases hcom : inp.commit with e | u <;>
                    simpa [run, hdiff, hemp, mkGitDiff,
                      generateCommitMessage, hguard, hhttp, hy, hcom]
                      using h
                refine ⟨content, raw, ?_⟩
                rcases hcom : inp.commit with e | u
                · exact ⟨[Effect.printErr (commitFailMsg e)], rfl, hemp,
                    by omega, rfl, hy, hc, by
                      simp [run, hdiff, hemp, mkGitDiff,
                        generateCommitMessage, hguard, hhttp, hy, hcom,
                        hc]⟩
                · exact ⟨[], rfl, hemp, by omega, rfl, hy, hc, by
                    simp [run, hdiff, hemp, mkGitDiff,
                      generateCommitMessage, hguard, hhttp, hy, hcom,
                      hc]⟩
              · simp [run, hdiff, hemp, mkGitDiff, generateCommitMessage,
                  hguard, hhttp, hy] at h
          · rcases hctx : isCtxLengthErr resp with _ | _
            · simp [run, hdiff, hemp, mkGitDiff, generateCommitMessage,
                hguard, hhttp, hctx] at h
            · simp [run, hdiff, hemp, mkGitDiff, generateCommitMessage,
                hguard, hhttp, hctx] at h
          · simp [run, hdiff, hemp, mkGitDiff, generateCommitMessage,
              hguard, hhttp] at h

def c8Inp : Inputs :=
  { apiKey := some "k", diff := Except.ok "+x",
    http := HttpOutcome.success (some "feat: add x"), answer := "y",
    commit := Except.ok () }

theorem c8_no_premature_mutation_witness :
    Effect.execCommit (commitCommand "feat: add x") ∈
      (program (fun _ => 0) c8Inp).effects ∧
    (¬ c8Inp.apiKey.getD "" = "" ∧
     ∃ content raw rest,
       c8Inp.diff = Except.ok content ∧
       ¬ jsTrim content = "" ∧
       (fun _ => 0 : String → Nat) promptTemplate +
           (fun _ => 0 : String → Nat) content ≤ maxContextLength ∧
       c8Inp.http = HttpOutcome.success (some raw) ∧
       jsToLower c8Inp.answer = "y" ∧
       commitCommand "feat: add x" = commitCommand (jsTrim raw) ∧
       (program (fun _ => 0) c8Inp).effects =
         [Effect.execDiff, Effect.httpPost (promptTemplate ++ content),
          Effect.printOut suggestedHeader, Effect.printOut (jsTrim raw),
          Effect.question questionText,
          Effect.execCommit (commitCommand "feat: add x")] ++ rest) :=
  ⟨by decide,
   c8_no_premature_mutation (fun _ => 0) c8Inp
     (commitCommand "feat: add x") (by decide)⟩
